import Mathlib

/-!
Verification of the dj-stripe Customer/Charge synchronization subsystem.

The repository ships the test suite (`tests/test_customer.py`) and a schema
migration, but not `djstripe/models.py` itself. The operations below are
therefore modelled from the specification (`spec.md`), with the shipped tests
used as the authority wherever they pin concrete behaviour down. Monetary
decimal-dollar values are embedded as exact rationals (`ℚ`); remote epoch
timestamps and local timestamps as natural numbers; the remote gateway's
outcome for a single call as an explicit `RemoteResult` value passed in by the
caller of the model.
-/

namespace DjStripe

/-- Outcome of one remote (Stripe) API call: success, or an
`InvalidRequestError` carrying a human-readable message. -/
inductive RemoteResult where
  | ok : RemoteResult
  | err (msg : String) : RemoteResult
deriving DecidableEq, Repr

/-- Modelled from the spec: the Remote Gateway distinguishes a "not-found"
condition from a generic remote error. In the shipped tests the not-found
condition during purge is an `InvalidRequestError` whose message starts with
"No such customer:" (`test_customer_purge_raises_customer_exception`), so the
classification is by that message prefix (computed on the underlying
character lists). -/
def isNotFoundError (msg : String) : Bool :=
  "No such customer:".data.isPrefixOf msg.data

/-- Modelled from the spec (§4.1 Money Codec): `toMinorUnits` multiplies a
decimal dollar amount by 100 and converts to an integer. -/
def to_minor_units (dollars : ℚ) : ℤ :=
  ⌊dollars * 100⌋

/-- Modelled from the spec (§4.1 Money Codec): `fromMinorUnits` divides an
integer cent count by 100, decimal-precise. -/
def from_minor_units (cents : ℤ) : ℚ :=
  (cents : ℚ) / 100

/-- A Python monetary argument as the callers of `charge` /
`add_invoice_item` may pass it: either a `decimal.Decimal` value (embedded by
its exact rational dollar value) or a plain integer, which the validation in
the code must reject. -/
inductive PyAmount where
  | decimalVal (dollars : ℚ) : PyAmount
  | intVal (n : ℤ) : PyAmount
deriving DecidableEq, Repr

/-- Local mirror of a remote billing account (`Customer` model, §3). The
subscriber reference is a nullable key into the application's user store. -/
structure Customer where
  stripe_id : String
  subscriber : Option Nat
  card_fingerprint : String
  card_last_4 : String
  card_kind : String
  card_exp_month : Option Nat
  card_exp_year : Option Nat
deriving DecidableEq, Repr

/-- Modelled from the spec (§4.2 purge): the local half of `purge()` — clear
the subscriber reference and the payment-instrument fields while preserving
the remote identifier and the row. -/
def Customer.purgeLocal (c : Customer) : Customer :=
  { c with
    subscriber := none
    card_fingerprint := ""
    card_last_4 := ""
    card_kind := ""
    card_exp_month := none
    card_exp_year := none }

/-- Modelled from the spec (§4.2 purge, §7): `purge()` attempts the remote
account delete (its outcome is the `RemoteResult` argument); a not-found
remote error is swallowed as already-consistent; any other remote error is
propagated unchanged with no local mutation applied; on the non-propagating
paths the local fields are cleared. Returns the resulting local record
together with the propagated error, if any. -/
def Customer.purge (c : Customer) (r : RemoteResult) : Customer × Option String :=
  match r with
  | .ok => (c.purgeLocal, none)
  | .err msg =>
    if isNotFoundError msg then (c.purgeLocal, none)
    else (c, some msg)

/-- The application-level state the purge/delete lifecycle touches: the user
store (rows of the application's user entity, by primary key) and the local
Customer rows. -/
structure World where
  users : List Nat
  customers : List Customer
deriving DecidableEq, Repr

/-- Modelled from the spec: `purge()` on the customer row with remote id
`sid` inside a `World` — the customer rows are updated in place (the row
survives), the user store is untouched. -/
def World.purgeCustomer (w : World) (sid : String) (r : RemoteResult) :
    World × Option String :=
  let purged : World :=
    { w with
      customers := w.customers.map fun c =>
        if c.stripe_id = sid then c.purgeLocal else c }
  match r with
  | .ok => (purged, none)
  | .err msg =>
    if isNotFoundError msg then (purged, none)
    else (w, some msg)

/-- Modelled from the spec (§4.2): `delete()` is an alias of `purge()` that
additionally triggers the standard record-removal hooks for the subscriber
side; behaviourally identical to `purge` for the Customer row, and per
`test_customer_delete_same_as_purge` the subscriber's user row survives. -/
def World.deleteCustomer (w : World) (sid : String) (r : RemoteResult) :
    World × Option String :=
  w.purgeCustomer sid r

/-- Local mirror of a remote charge (`Charge` model, §3). Monetary fields are
decimal dollars, embedded as exact rationals. -/
structure Charge where
  stripe_id : String
  amount : ℚ
  amount_refunded : ℚ
  paid : Bool
  disputed : Bool
  refunded : Bool
  captured : Bool
deriving DecidableEq, Repr

/-- Modelled from the spec (§4.4): `calculateRefundAmount(requested?)` returns
`min(requested, chargeAmount − amountAlreadyRefunded)` converted to integer
minor units; with `requested` omitted it returns the full remaining
refundable balance in minor units. -/
def Charge.calculate_refund_amount (ch : Charge) (requested : Option ℚ) : ℤ :=
  let eligible := ch.amount - ch.amount_refunded
  match requested with
  | some amt => to_minor_units (min eligible amt)
  | none => to_minor_units eligible

/-- A remote gateway call as issued by the operations below (§6); only the
arguments the specification constrains are recorded (amount in integer minor
units, currency, owning customer / invoice linkage). -/
inductive RemoteCall where
  | chargeCreate (amount_cents : ℤ) (customer : String) : RemoteCall
  | invoiceItemCreate (amount_cents : ℤ) (currency : String)
      (invoice : Option Nat) (description : String) (customer : String) : RemoteCall
  | invoiceCreate (customer : String) : RemoteCall
deriving DecidableEq, Repr

/-- The error message of the `InvalidAmount` validation
(`test_add_invoice_item_bad_decimal`). -/
def invalidAmountMessage : String :=
  "You must supply a decimal value representing dollars."

/-- Modelled from the spec (§4.2 charge): validation-and-remote-call front end
of `charge(amount)` — fails with `InvalidAmount` before any remote call when
`amount` is not a decimal; otherwise converts to minor units and issues the
remote charge-create call. Returns the list of remote calls made and the
outcome (the downstream re-fetch-and-upsert of the resulting Charge is not
modelled; the claims checked here concern only the validation and the amount
passed to the create call). -/
def Customer.charge (c : Customer) (amount : PyAmount) :
    List RemoteCall × Except String Unit :=
  match amount with
  | .decimalVal d => ([.chargeCreate (to_minor_units d) c.stripe_id], .ok ())
  | .intVal _ => ([], .error invalidAmountMessage)

/-- Modelled from the spec (§4.2 addInvoiceItem): fails with `InvalidAmount`
("must supply a decimal value representing dollars") before any remote call
when `amount` is not decimal; otherwise converts to minor units and issues
the remote invoice-item create call. -/
def Customer.add_invoice_item (c : Customer) (amount : PyAmount)
    (currency : String) (invoice_id : Option Nat) (description : String) :
    List RemoteCall × Except String Unit :=
  match amount with
  | .decimalVal d =>
    ([.invoiceItemCreate (to_minor_units d) currency invoice_id description c.stripe_id],
      .ok ())
  | .intVal _ => ([], .error invalidAmountMessage)

/-- Modelled from the spec (§4.2 sendInvoice): calls remote invoice-create for
this customer and converts the outcome into a boolean — true on success,
false (not raised) when the remote call fails. -/
def Customer.send_invoice (c : Customer) (r : RemoteResult) :
    List RemoteCall × Bool :=
  ([.invoiceCreate c.stripe_id],
    match r with
    | .ok => true
    | .err _ => false)

/-- A local invoice as `retry_unpaid_invoices` sees it: its id, its paid flag,
and the outcome the remote retry call would produce for it. -/
structure Invoice where
  stripe_id : String
  paid : Bool
  retry_result : RemoteResult
deriving DecidableEq, Repr

/-- The remote error message meaning the invoice was already paid, swallowed
per-invoice by `retry_unpaid_invoices`
(`test_retry_unpaid_invoices_expected_exception`). -/
def alreadyPaidMessage : String :=
  "Invoice is already paid"

/-- An observable event of `retry_unpaid_invoices`: the invoice re-sync, or a
retry attempt on one invoice. -/
inductive Ev where
  | sync : Ev
  | retried (invoice_id : String) : Ev
deriving DecidableEq, Repr

/-- Modelled from the spec (§4.2 retryUnpaidInvoices), the per-invoice loop:
for each unpaid invoice attempt the retry call; an "already paid" remote
error is swallowed and iteration continues; any other remote error is
propagated unchanged and aborts the remaining retries. Returns the retry
attempts made and the propagated error, if any. -/
def retryLoop : List Invoice → List Ev × Option String
  | [] => ([], none)
  | inv :: rest =>
    if inv.paid then retryLoop rest
    else
      match inv.retry_result with
      | .ok =>
        let (evs, e) := retryLoop rest
        (Ev.retried inv.stripe_id :: evs, e)
      | .err msg =>
        if msg = alreadyPaidMessage then
          let (evs, e) := retryLoop rest
          (Ev.retried inv.stripe_id :: evs, e)
        else ([Ev.retried inv.stripe_id], some msg)

/-- Modelled from the spec (§4.2 retryUnpaidInvoices): first re-syncs
invoices, then runs the retry loop over the customer's invoices. -/
def Customer.retry_unpaid_invoices (invs : List Invoice) :
    List Ev × Option String :=
  let (evs, e) := retryLoop invs
  (Ev.sync :: evs, e)

/-- A benign invoice for the retry loop: already paid (skipped by the unpaid
filter), or its remote retry succeeds, or it fails with the swallowed
"already paid" error. -/
def Invoice.retryBenign (i : Invoice) : Bool :=
  i.paid ||
    match i.retry_result with
    | .ok => true
    | .err m => m = alreadyPaidMessage

/-- The active payment instrument of a remote customer snapshot (§6). -/
structure StripeCard where
  fingerprint : String
  last4 : String
  card_type : String
  exp_month : Nat
  exp_year : Nat
deriving DecidableEq, Repr

/-- The remote customer snapshot as `_sync` consumes it (§6):
`customer.retrieve(id) -> \x7bid, deleted, activeInstrument, ...\x7d`. -/
structure StripeCustomerSnapshot where
  deleted : Bool
  active_card : Option StripeCard
deriving DecidableEq, Repr

/-- Modelled from the spec (§4.2 _sync): fetch the remote customer snapshot;
if the remote account is marked deleted, perform `purge()` (whose remote
delete outcome is the `RemoteResult` argument); else update the local
payment-instrument fields from the remote active instrument and persist.
Deviation from the spec's words: the spec says the fields are cleared when no
active instrument is present, but `test_sync_no_card`
(tests/test_customer.py:357-363) asserts that the prior field values survive
a sync with `active_card=None`; the model follows the test and leaves the
fields unchanged in that case. -/
def Customer.stripe_sync (c : Customer) (snap : StripeCustomerSnapshot)
    (deleteResult : RemoteResult) : Customer × Option String :=
  if snap.deleted then c.purge deleteResult
  else
    match snap.active_card with
    | some card =>
      ({ c with
          card_fingerprint := card.fingerprint
          card_last_4 := card.last4
          card_kind := card.card_type
          card_exp_month := some card.exp_month
          card_exp_year := some card.exp_year }, none)
    | none => (c, none)

/-- The remote subscription snapshot as the Subscription State Reconciler
consumes it (§4.3, §6): plan id and plan amount in minor units, quantity,
verbatim status string, epoch timestamps (trial ones absent when the remote
reports them falsy), the cancel-at-period-end flag and the remote canceled-at
timestamp (absent when falsy). -/
structure StripeSubscription where
  plan_id : String
  plan_amount : ℤ
  quantity : Nat
  status : String
  start : Nat
  current_period_start : Nat
  current_period_end : Nat
  trial_start : Option Nat
  trial_end : Option Nat
  cancel_at_period_end : Bool
  canceled_at : Option Nat
deriving DecidableEq, Repr

/-- At most one per Customer: the denormalized local snapshot of the remote
subscription (`CurrentSubscription` model, §3). Timestamps are local times
(naturals); monetary amount is decimal dollars. -/
structure CurrentSubscription where
  plan : String
  quantity : Nat
  amount : ℚ
  status : String
  start : Nat
  current_period_start : Option Nat
  current_period_end : Option Nat
  trial_start : Option Nat
  trial_end : Option Nat
  cancel_at_period_end : Bool
  canceled_at : Option Nat
deriving DecidableEq, Repr

/-- The Cancelled member of the subscription status enumeration. -/
def STATUS_CANCELLED : String := "cancelled"

/-- Modelled from the spec (§4.3 step 2): the wholesale replacement built
from a present remote subscription snapshot — plan resolved through the
plan-lookup collaborator `planOf`, amount converted from minor units,
status verbatim, timestamps converted from remote epoch values by `conv`,
trial bounds null when the remote reports them absent.
Deviation from the spec's words on canceled-at: the spec says it is set to
the converted current-period-start when cancel-at-period-end is true and
left unset otherwise, but `test_sync_current_subscription_update_no_trial`
(tests/test_customer.py:424-450) asserts a set canceled-at while the
snapshot has `cancel_at_period_end=False` (the mocked snapshot carries a
truthy canceled-at attribute and the mocked timestamp conversion returns the
asserted time); the model follows the test and sets canceled-at to the
converted remote canceled-at timestamp whenever one is present, independent
of the cancel-at-period-end flag. -/
def replaceSubscription (sub : StripeSubscription) (conv : Nat → Nat)
    (planOf : String → String) : CurrentSubscription :=
  { plan := planOf sub.plan_id
    quantity := sub.quantity
    amount := from_minor_units sub.plan_amount
    status := sub.status
    start := conv sub.start
    current_period_start := some (conv sub.current_period_start)
    current_period_end := some (conv sub.current_period_end)
    trial_start := sub.trial_start.map conv
    trial_end := sub.trial_end.map conv
    cancel_at_period_end := sub.cancel_at_period_end
    canceled_at := sub.canceled_at.map conv }

/-- Modelled from the spec (§4.3 Subscription State Reconciler):
`_sync_current_subscription()` maps the remote subscription snapshot (or its
absence) onto the local CurrentSubscription (or its absence). If the remote
snapshot is null: a local record whose status is not already Cancelled is
set to Cancelled with canceled-at `now` and returned; with no local record,
null is returned. If the remote snapshot is present, the local record is
replaced wholesale by `replaceSubscription`. -/
def sync_current_subscription (remote : Option StripeSubscription)
    (local_sub : Option CurrentSubscription) (now : Nat) (conv : Nat → Nat)
    (planOf : String → String) : Option CurrentSubscription :=
  match remote with
  | none =>
    match local_sub with
    | none => none
    | some s =>
      if s.status = STATUS_CANCELLED then some s
      else some { s with status := STATUS_CANCELLED, canceled_at := some now }
  | some sub => some (replaceSubscription sub conv planOf)

/-! Concrete fixtures, mirroring the records the test suite builds. -/

/-- The customer record the test suite's `setUp` creates. -/
def patrick : Customer :=
  { stripe_id := "cus_6lsBvm5rJ0zyHc"
    subscriber := some 1
    card_fingerprint := "YYYYYYYY"
    card_last_4 := "2342"
    card_kind := "Visa"
    card_exp_month := none
    card_exp_year := none }

/-- The charge fixture of the refund-amount tests: amount 500.00 dollars,
nothing refunded yet. -/
def refundCharge : Charge :=
  { stripe_id := "ch_111111"
    amount := 500
    amount_refunded := 0
    paid := true
    disputed := false
    refunded := false
    captured := false }

/-- An unpaid invoice whose remote retry succeeds. -/
def invOk : Invoice :=
  { stripe_id := "inv_ok", paid := false, retry_result := .ok }

/-- A second unpaid invoice whose remote retry succeeds. -/
def invOk2 : Invoice :=
  { stripe_id := "inv_ok2", paid := false, retry_result := .ok }

/-- An unpaid invoice whose remote retry reports it already paid. -/
def invAlreadyPaid : Invoice :=
  { stripe_id := "inv_paid", paid := false
    retry_result := .err "Invoice is already paid" }

/-- An unpaid invoice whose remote retry fails with an unexpected error. -/
def invFail : Invoice :=
  { stripe_id := "inv_fail", paid := false
    retry_result := .err "This should fail!" }

/-- A local current subscription with an active-like status, as in
`fake_current_subscription_cancelled_in_stripe`. -/
def activeSub : CurrentSubscription :=
  { plan := "test_plan"
    quantity := 1
    amount := 25
    status := "active"
    start := 0
    current_period_start := none
    current_period_end := none
    trial_start := none
    trial_end := none
    cancel_at_period_end := false
    canceled_at := none }

/-- A remote subscription snapshot carrying a canceled-at timestamp while
its cancel-at-period-end flag is false. -/
def snapWithCanceledAt : StripeSubscription :=
  { plan_id := "fish"
    plan_amount := 5000
    quantity := 5
    status := "tree"
    start := 3
    current_period_start := 4
    current_period_end := 5
    trial_start := none
    trial_end := none
    cancel_at_period_end := false
    canceled_at := some 42 }

/-- A remote subscription snapshot with cancel-at-period-end set and no
canceled-at timestamp. -/
def snapFlagOnly : StripeSubscription :=
  { snapWithCanceledAt with cancel_at_period_end := true, canceled_at := none }

/-- A remote customer snapshot that is not deleted and has no active card. -/
def snapNoCard : StripeCustomerSnapshot :=
  { deleted := false, active_card := none }

/-- The remote active card of `test_sync_active_card`. -/
def cherryCard : StripeCard :=
  { fingerprint := "cherry", last4 := "4429", card_type := "apple"
    exp_month := 12, exp_year := 2020 }

/-- A one-user, one-customer application state. -/
def worldPatrick : World :=
  { users := [1], customers := [patrick] }

/-! Helper lemmas for the retry loop. -/

/-- If every invoice in the list is benign for the retry loop, the loop
attempts every unpaid invoice in order and propagates no error. -/
theorem retryLoop_benign (invs : List Invoice)
    (h : ∀ i ∈ invs, i.retryBenign = true) :
    retryLoop invs
      = ((invs.filter fun i => !i.paid).map fun i => Ev.retried i.stripe_id,
          none) := by
  induction invs with
  | nil => rfl
  | cons inv rest ih =>
    have hinv := h inv (List.mem_cons_self _ _)
    have hrest : ∀ i ∈ rest, i.retryBenign = true :=
      fun i hi => h i (List.mem_cons_of_mem _ hi)
    have ihr := ih hrest
    by_cases hp : inv.paid
    · simp [retryLoop, hp, ihr, List.filter_cons]
    · simp only [Invoice.retryBenign, hp, Bool.false_or] at hinv
      cases hres : inv.retry_result with
      | ok => simp [retryLoop, hp, hres, ihr, List.filter_cons]
      | err m =>
        rw [hres] at hinv
        simp only [decide_eq_true_eq] at hinv
        simp [retryLoop, hp, hres, hinv, ihr, List.filter_cons]

/-- If every invoice before `i` is benign and unpaid `i` fails with an
unswallowed error, the loop attempts the unpaid prefix and `i`, propagates
`i`'s error message unchanged, and never reaches the invoices after `i`. -/
theorem retryLoop_abort (pre post : List Invoice) (i : Invoice) (msg : String)
    (hpre : ∀ j ∈ pre, j.retryBenign = true) (hip : i.paid = false)
    (hres : i.retry_result = .err msg) (hmsg : msg ≠ alreadyPaidMessage) :
    retryLoop (pre ++ i :: post)
      = ((pre.filter fun j => !j.paid).map (fun j => Ev.retried j.stripe_id)
          ++ [Ev.retried i.stripe_id], some msg) := by
  induction pre with
  | nil => simp [retryLoop, hip, hres, hmsg]
  | cons j rest ih =>
    have hj := hpre j (List.mem_cons_self _ _)
    have hrest : ∀ k ∈ rest, k.retryBenign = true :=
      fun k hk => hpre k (List.mem_cons_of_mem _ hk)
    have ihr := ih hrest
    by_cases hp : j.paid
    · simp [retryLoop, hp, ihr, List.filter_cons]
    · simp only [Invoice.retryBenign, hp, Bool.false_or] at hj
      cases hjres : j.retry_result with
      | ok => simp [retryLoop, hp, hjres, ihr, List.filter_cons]
      | err m =>
        rw [hjres] at hj
        simp only [decide_eq_true_eq] at hj
        simp [retryLoop, hp, hjres, hj, ihr, List.filter_cons]

/-- C3: for every Charge with amount `a` and amount already refunded `r`,
`calculate_refund_amount requested` returns `min(requested, a − r)` converted
to integer cents, with `requested` omitted it returns the full remaining
refundable balance in cents, and the result never exceeds the remaining
refundable balance; on the 500.00-dollar fixture with nothing refunded the
results are 50000 with no argument, 30000 for 300.00, 50000 (never 60000)
for 600.00. -/
theorem calculate_refund_amount_spec (ch : Charge) (requested : ℚ) :
    ch.calculate_refund_amount (some requested)
        = to_minor_units (min (ch.amount - ch.amount_refunded) requested)
  ∧ ch.calculate_refund_amount none
        = to_minor_units (ch.amount - ch.amount_refunded)
  ∧ ch.calculate_refund_amount (some requested)
        ≤ to_minor_units (ch.amount - ch.amount_refunded)
  ∧ refundCharge.calculate_refund_amount none = 50000
  ∧ refundCharge.calculate_refund_amount (some 300) = 30000
  ∧ refundCharge.calculate_refund_amount (some 600) = 50000
  ∧ refundCharge.calculate_refund_amount (some 600) ≠ 60000 := by
  refine ⟨rfl, rfl, ?_, ?_, ?_, ?_, ?_⟩
  · show to_minor_units (min (ch.amount - ch.amount_refunded) requested) ≤ _
    exact Int.floor_le_floor
      (mul_le_mul_of_nonneg_right (min_le_left _ _) (by norm_num))
  · norm_num [refundCharge, Charge.calculate_refund_amount, to_minor_units]
  · norm_num [refundCharge, Charge.calculate_refund_amount, to_minor_units]
  · norm_num [refundCharge, Charge.calculate_refund_amount, to_minor_units]
  · norm_num [refundCharge, Charge.calculate_refund_amount, to_minor_units]

/-- C4: `charge(amount=d)` issues the remote charge-create call with amount
`⌊d · 100⌋` integer cents, `add_invoice_item(amount=d)` applies the same
conversion before its remote call, and concretely 10.00 dollars becomes 1000
cents and 50.00 dollars becomes 5000 cents. -/
theorem charge_converts_dollars_to_cents (c : Customer) (d : ℚ)
    (currency description : String) (invoice_id : Option Nat) :
    c.charge (.decimalVal d)
        = ([.chargeCreate (to_minor_units d) c.stripe_id], .ok ())
  ∧ c.add_invoice_item (.decimalVal d) currency invoice_id description
        = ([.invoiceItemCreate (to_minor_units d) currency invoice_id
            description c.stripe_id], .ok ())
  ∧ to_minor_units d = ⌊d * 100⌋
  ∧ to_minor_units 10 = 1000
  ∧ to_minor_units 50 = 5000 := by
  refine ⟨rfl, rfl, rfl, ?_, ?_⟩
  · norm_num [to_minor_units]
  · norm_num [to_minor_units]

/-- C5: `charge(amount)` and `add_invoice_item(amount)` fail with the
`InvalidAmount` error "You must supply a decimal value representing dollars."
whenever the amount is a plain integer rather than a decimal, and on that
path no remote call is made (the recorded call trace is empty). -/
theorem invalid_amount_validation (c : Customer) (n : ℤ)
    (currency description : String) (invoice_id : Option Nat) :
    c.charge (.intVal n) = ([], .error invalidAmountMessage)
  ∧ c.add_invoice_item (.intVal n) currency invoice_id description
      = ([], .error invalidAmountMessage)
  ∧ invalidAmountMessage
      = "You must supply a decimal value representing dollars." :=
  ⟨rfl, rfl, rfl⟩

/-- C7: `send_invoice()` issues the remote invoice-create call for this
customer and returns a boolean — true when the remote call succeeds and
false, without raising, for any failing remote call. -/
theorem send_invoice_spec (c : Customer) (msg : String) :
    c.send_invoice .ok = ([.invoiceCreate c.stripe_id], true)
  ∧ c.send_invoice (.err msg) = ([.invoiceCreate c.stripe_id], false) :=
  ⟨rfl, rfl⟩

/-- C1: `purge()` clears the subscriber reference and the payment-instrument
fields while preserving `stripe_id` and the Customer row; a remote not-found
error is swallowed and the local clearing still happens; any other remote
error is propagated unchanged and no local mutation is applied on that
path. -/
theorem purge_spec (c : Customer) (msg : String) (w : World) (sid : String) :
    c.purge .ok = (c.purgeLocal, none)
  ∧ (isNotFoundError msg = true → c.purge (.err msg) = (c.purgeLocal, none))
  ∧ (isNotFoundError msg = false → c.purge (.err msg) = (c, some msg))
  ∧ c.purgeLocal.subscriber = none
  ∧ c.purgeLocal.card_fingerprint = ""
  ∧ c.purgeLocal.card_last_4 = ""
  ∧ c.purgeLocal.card_kind = ""
  ∧ c.purgeLocal.stripe_id = c.stripe_id
  ∧ (isNotFoundError msg = false →
      w.purgeCustomer sid (.err msg) = (w, some msg))
  ∧ (w.purgeCustomer sid .ok).1.customers.length = w.customers.length := by
  refine ⟨rfl, ?_, ?_, rfl, rfl, rfl, rfl, rfl, ?_, ?_⟩
  · intro h; simp [Customer.purge, h]
  · intro h; simp [Customer.purge, h]
  · intro h; simp [World.purgeCustomer, h]
  · simp [World.purgeCustomer]

/-- Witness for `purge_spec` at the test suite's customer and the two remote
error messages the tests use. -/
theorem purge_spec_witness :
    patrick.purge .ok = (patrick.purgeLocal, none)
  ∧ patrick.purge (.err "No such customer: cus_6lsBvm5rJ0zyHc")
      = (patrick.purgeLocal, none)
  ∧ patrick.purge (.err "Unexpected Exception")
      = (patrick, some "Unexpected Exception")
  ∧ worldPatrick.purgeCustomer "cus_6lsBvm5rJ0zyHc" (.err "Unexpected Exception")
      = (worldPatrick, some "Unexpected Exception") := by
  have h1 := purge_spec patrick "No such customer: cus_6lsBvm5rJ0zyHc"
    worldPatrick "cus_6lsBvm5rJ0zyHc"
  have h2 := purge_spec patrick "Unexpected Exception"
    worldPatrick "cus_6lsBvm5rJ0zyHc"
  exact ⟨h1.1, h1.2.1 (by decide), h2.2.2.1 (by decide),
    h2.2.2.2.2.2.2.2.2.1 (by decide)⟩

/-- C10: neither `purge()` nor `delete()` removes the subscriber's user row
from the user store — the user rows are untouched and every pre-existing
user survives — while the Customer row itself survives with its subscriber
reference cleared to null. -/
theorem purge_delete_preserve_user (w : World) (sid : String)
    (r : RemoteResult) :
    (w.purgeCustomer sid r).1.users = w.users
  ∧ w.deleteCustomer sid r = w.purgeCustomer sid r
  ∧ (∀ u, u ∈ w.users → u ∈ (w.purgeCustomer sid r).1.users)
  ∧ (∀ u, u ∈ w.users → u ∈ (w.deleteCustomer sid r).1.users)
  ∧ ((w.purgeCustomer sid r).2 = none → ∀ c, c ∈ w.customers →
      c.stripe_id = sid →
      c.purgeLocal ∈ (w.purgeCustomer sid r).1.customers
        ∧ c.purgeLocal.subscriber = none) := by
  have husers : (w.purgeCustomer sid r).1.users = w.users := by
    cases r with
    | ok => rfl
    | err m =>
      by_cases h : isNotFoundError m
      · simp [World.purgeCustomer, h]
      · simp [World.purgeCustomer, h]
  refine ⟨husers, rfl, ?_, ?_, ?_⟩
  · intro u hu; rw [husers]; exact hu
  · intro u hu
    show u ∈ (w.purgeCustomer sid r).1.users
    rw [husers]; exact hu
  · intro hnone c hc hcid
    refine ⟨?_, rfl⟩
    have hm := List.mem_map_of_mem
      (fun x : Customer => if x.stripe_id = sid then x.purgeLocal else x) hc
    simp only [hcid, if_pos] at hm
    cases r with
    | ok => simpa [World.purgeCustomer] using hm
    | err m =>
      by_cases h : isNotFoundError m
      · simpa [World.purgeCustomer, h] using hm
      · simp [World.purgeCustomer, h] at hnone

/-- Witness for `purge_delete_preserve_user` at the one-user, one-customer
state. -/
theorem purge_delete_preserve_user_witness :
    (worldPatrick.purgeCustomer "cus_6lsBvm5rJ0zyHc" .ok).1.users
      = worldPatrick.users
  ∧ (1 : Nat) ∈ (worldPatrick.deleteCustomer "cus_6lsBvm5rJ0zyHc" .ok).1.users
  ∧ patrick.purgeLocal
      ∈ (worldPatrick.purgeCustomer "cus_6lsBvm5rJ0zyHc" .ok).1.customers
  ∧ patrick.purgeLocal.subscriber = none := by
  have h := purge_delete_preserve_user worldPatrick "cus_6lsBvm5rJ0zyHc" .ok
  exact ⟨h.1, h.2.2.2.1 1 (by decide),
    (h.2.2.2.2 rfl patrick (by decide) rfl).1,
    (h.2.2.2.2 rfl patrick (by decide) rfl).2⟩

/-- C6: `retry_unpaid_invoices()` first re-syncs invoices, then attempts a
retry for each unpaid invoice; an "already paid" remote error is swallowed
for that invoice and iteration continues, while any other remote error is
re-raised unchanged with its original message and aborts the remaining
retries. -/
theorem retry_unpaid_invoices_spec (invs pre post : List Invoice)
    (i : Invoice) (msg : String) :
    ((∀ j ∈ invs, j.retryBenign = true) →
      Customer.retry_unpaid_invoices invs
        = (Ev.sync ::
            (invs.filter fun j => !j.paid).map (fun j => Ev.retried j.stripe_id),
           none))
  ∧ ((∀ j ∈ pre, j.retryBenign = true) → i.paid = false →
      i.retry_result = .err msg → msg ≠ alreadyPaidMessage →
      Customer.retry_unpaid_invoices (pre ++ i :: post)
        = (Ev.sync ::
            ((pre.filter fun j => !j.paid).map (fun j => Ev.retried j.stripe_id)
              ++ [Ev.retried i.stripe_id]),
           some msg)) := by
  constructor
  · intro h
    simp [Customer.retry_unpaid_invoices, retryLoop_benign invs h]
  · intro hpre hip hres hmsg
    simp [Customer.retry_unpaid_invoices,
      retryLoop_abort pre post i msg hpre hip hres hmsg]

/-- Witness for `retry_unpaid_invoices_spec`: an already-paid failure is
swallowed and the next invoice is still retried; an unexpected failure
propagates its message and the remaining invoice is never retried. -/
theorem retry_unpaid_invoices_spec_witness :
    Customer.retry_unpaid_invoices [invAlreadyPaid, invOk]
      = ([Ev.sync, Ev.retried "inv_paid", Ev.retried "inv_ok"], none)
  ∧ Customer.retry_unpaid_invoices ([invOk] ++ invFail :: [invOk2])
      = ([Ev.sync, Ev.retried "inv_ok", Ev.retried "inv_fail"],
          some "This should fail!") := by
  have h := retry_unpaid_invoices_spec [invAlreadyPaid, invOk] [invOk]
    [invOk2] invFail "This should fail!"
  constructor
  · rw [h.1 (by decide)]; decide
  · rw [h.2 (by decide) (by decide) (by decide) (by decide)]; decide

/-- C2: `_sync_current_subscription()` with no remote subscription snapshot —
a local CurrentSubscription whose status is not already Cancelled is set to
Cancelled with canceled-at the current time and returned; with no local
record, null is returned. -/
theorem sync_current_subscription_cancel (s : CurrentSubscription) (now : Nat)
    (conv : Nat → Nat) (planOf : String → String) :
    sync_current_subscription none none now conv planOf = none
  ∧ (s.status ≠ STATUS_CANCELLED →
      sync_current_subscription none (some s) now conv planOf
        = some { s with status := STATUS_CANCELLED,
                        canceled_at := some now }) := by
  refine ⟨rfl, ?_⟩
  intro h
  simp [sync_current_subscription, h]

/-- Witness for `sync_current_subscription_cancel` at the active fixture
subscription. -/
theorem sync_current_subscription_cancel_witness :
    sync_current_subscription none (some activeSub) 7 (fun t => t)
        (fun p => p)
      = some { activeSub with status := STATUS_CANCELLED,
                              canceled_at := some 7 } :=
  (sync_current_subscription_cancel activeSub 7 (fun t => t)
    (fun p => p)).2 (by decide)

/-- C8 counterexample: a sync on a non-deleted remote snapshot with no active
instrument leaves the payment-instrument fields at their prior values — it
does not clear them, contrary to the claim (and per `test_sync_no_card`). -/
theorem stripe_sync_no_card_cex :
    (patrick.stripe_sync snapNoCard .ok).1.card_fingerprint = "YYYYYYYY"
  ∧ (patrick.stripe_sync snapNoCard .ok).1.card_last_4 = "2342"
  ∧ (patrick.stripe_sync snapNoCard .ok).1.card_kind = "Visa"
  ∧ ¬ (patrick.stripe_sync snapNoCard .ok).1.card_fingerprint = "" := by
  decide

/-- C8 (amended): `_sync()` performs `purge()` when the remote account is
marked deleted; otherwise it updates the payment-instrument fields from the
remote active instrument when one is present, and leaves them unchanged when
no active instrument is present. -/
theorem stripe_sync_spec (c : Customer) (card : StripeCard)
    (snap : StripeCustomerSnapshot) (r : RemoteResult) :
    (snap.deleted = true → c.stripe_sync snap r = c.purge r)
  ∧ (snap.deleted = false → snap.active_card = some card →
      c.stripe_sync snap r
        = ({ c with
              card_fingerprint := card.fingerprint
              card_last_4 := card.last4
              card_kind := card.card_type
              card_exp_month := some card.exp_month
              card_exp_year := some card.exp_year }, none))
  ∧ (snap.deleted = false → snap.active_card = none →
      c.stripe_sync snap r = (c, none)) := by
  refine ⟨?_, ?_, ?_⟩
  · intro h; simp [Customer.stripe_sync, h]
  · intro h hcard; simp [Customer.stripe_sync, h, hcard]
  · intro h hcard; simp [Customer.stripe_sync, h, hcard]

/-- Witness for `stripe_sync_spec` at the test suite's customer, the
deleted snapshot, the cherry card snapshot, and the no-card snapshot. -/
theorem stripe_sync_spec_witness :
    patrick.stripe_sync { deleted := true, active_card := none } .ok
      = patrick.purge .ok
  ∧ patrick.stripe_sync { deleted := false, active_card := some cherryCard } .ok
      = ({ patrick with
            card_fingerprint := "cherry"
            card_last_4 := "4429"
            card_kind := "apple"
            card_exp_month := some 12
            card_exp_year := some 2020 }, none)
  ∧ patrick.stripe_sync snapNoCard .ok = (patrick, none) := by
  have h1 := stripe_sync_spec patrick cherryCard
    { deleted := true, active_card := none } RemoteResult.ok
  have h2 := stripe_sync_spec patrick cherryCard
    { deleted := false, active_card := some cherryCard } RemoteResult.ok
  have h3 := stripe_sync_spec patrick cherryCard snapNoCard RemoteResult.ok
  refine ⟨h1.1 rfl, ?_, h3.2.2 rfl rfl⟩
  rw [h2.2.1 rfl rfl]
  rfl

/-- C9 counterexample: with a remote snapshot whose cancel-at-period-end flag
is false but which carries a canceled-at timestamp, the reconciled
subscription's canceled-at is set (to the converted remote canceled-at), not
left unset; and with the flag true but no remote canceled-at, it is not the
converted current-period-start — both contrary to the claim. -/
theorem sync_canceled_at_cex :
    (sync_current_subscription (some snapWithCanceledAt) (some activeSub) 0
        (fun t => t) (fun p => p)).map CurrentSubscription.canceled_at
      = some (some 42)
  ∧ ¬ ((sync_current_subscription (some snapWithCanceledAt) (some activeSub) 0
        (fun t => t) (fun p => p)).map CurrentSubscription.canceled_at
      = some none)
  ∧ (sync_current_subscription (some snapFlagOnly) (some activeSub) 0
        (fun t => t) (fun p => p)).map CurrentSubscription.canceled_at
      = some none
  ∧ ¬ ((sync_current_subscription (some snapFlagOnly) (some activeSub) 0
        (fun t => t) (fun p => p)).map CurrentSubscription.canceled_at
      = some (some snapFlagOnly.current_period_start)) := by
  decide

/-- C9 (amended): with a remote subscription snapshot present, the
reconciled CurrentSubscription's canceled-at is the converted remote
canceled-at timestamp when the snapshot carries one and null when it does
not, independently of the cancel-at-period-end flag; the converted
current-period-start is stored in current-period-start instead. -/
theorem sync_canceled_at_amended (sub : StripeSubscription)
    (local_sub : Option CurrentSubscription) (now : Nat) (conv : Nat → Nat)
    (planOf : String → String) :
    sync_current_subscription (some sub) local_sub now conv planOf
      = some (replaceSubscription sub conv planOf)
  ∧ (replaceSubscription sub conv planOf).canceled_at
      = sub.canceled_at.map conv
  ∧ (replaceSubscription sub conv planOf).current_period_start
      = some (conv sub.current_period_start) :=
  ⟨rfl, rfl, rfl⟩

end DjStripe
